import Mathlib

/-!
Verification of the X12 997 acknowledgment pre-processor
(`example_scripts/process_x12_997_files.js`).

The JavaScript source is shallowly embedded: JS strings become Lean
`String`, possibly-`undefined` values become `Option`, and the mutable
walker variables become an explicit `WalkState` record threaded through a
fold over the tokenized segment list.  The log sink and the data-tag sink
are modelled as append-only lists carried in the state.
-/

namespace X12

/-! ## JavaScript string primitives -/

/-- JS `s[i]` character indexing: `undefined` out of range. -/
def jsCharAt (s : String) (i : Nat) : Option Char := s.data[i]?

/-- First index at which `pat` occurs in `l` (JS `indexOf`, as an `Option`
instead of `-1`). -/
def findSub (pat : List Char) : List Char → Option Nat
  | [] => if pat.isEmpty then some 0 else none
  | c :: rest =>
    if pat.isPrefixOf (c :: rest) then some 0
    else (findSub pat rest).map (· + 1)

/-- JS `hay.indexOf(sub)`, `none` for `-1`. -/
def jsIndexOf (hay sub : String) : Option Nat := findSub sub.data hay.data

/-- JS `s.substr(start, len)`. -/
def jsSubstr (s : String) (start len : Nat) : String :=
  String.mk ((s.data.drop start).take len)

/-- Split `l` at every occurrence of the non-empty separator `sep`
(JS `String.prototype.split` with a string separator).  The fuel is one
more than the list length, which bounds the number of produced chunks. -/
def splitFuel (sep : List Char) : Nat → List Char → List (List Char)
  | 0, l => [l]
  | fuel + 1, l =>
    match findSub sep l with
    | none => [l]
    | some i => l.take i :: splitFuel sep fuel (l.drop (i + sep.length))

/-- JS `s.split(sep)` where `sep` may be `undefined` (`none`): splitting on
`undefined` returns the whole string, splitting on the empty string returns
the list of characters. -/
def jsSplit (s : String) : Option String → List String
  | none => [s]
  | some p =>
    if p.data.isEmpty then s.data.map (fun c => String.mk [c])
    else (splitFuel p.data (s.data.length + 1) s.data).map String.mk

/-- JS whitespace test for `trim` (ASCII subset; all content in this
pipeline is ASCII). -/
def isJsWs (c : Char) : Bool :=
  c = ' ' || c = '\t' || c = '\n' || c = '\r' || c = '\x0b' || c = '\x0c'

/-- JS `s.trim()`. -/
def jsTrim (s : String) : String :=
  String.mk (((s.data.dropWhile isJsWs).reverse.dropWhile isJsWs).reverse)

/-- JS `s.startsWith(p)`. -/
def jsStartsWith (s p : String) : Bool :=
  s.data.take p.data.length == p.data

/-- JS `s.toUpperCase()` (ASCII; the codes compared in the source are
single ASCII letters). -/
def jsToUpper (s : String) : String := String.mk (s.data.map Char.toUpper)

/-- JS `a || b` on strings: only the empty string is falsy. -/
def jsOr (a b : String) : String := if a = "" then b else a

/-- JS list indexing with the or-empty default: `undefined` out of range
and the present-but-empty field both collapse to the empty string. -/
def jsGetD (l : List String) (i : Nat) : String := l.getD i ""

/-! ## Error code tables (closed enumerations from the source) -/

/-- AK3 segment-error codes (`AK3_ERROR_ENUM`); JS object keys are the
decimal strings of the numeric literals. -/
def AK3_ERROR_ENUM : String → Option String
  | "1" => some "Unrecognized segment ID"
  | "2" => some "Unexpected segment"
  | "3" => some "Mandatory segment missing"
  | "4" => some "Loop occurs over maximum times"
  | "5" => some "Segment exceeds maximum use"
  | "6" => some "Segment not in defined transaction set"
  | "7" => some "Segment not in proper sequence"
  | "8" => some "Segment has data element errors"
  | _ => none

/-- AK4 element-error codes (`AK4_ERROR_ENUM`). -/
def AK4_ERROR_ENUM : String → Option String
  | "1" => some "Mandatory data element missing"
  | "2" => some "Conditional required data element missing"
  | "3" => some "Too many data elements"
  | "4" => some "Data element too short"
  | "5" => some "Data element too long"
  | "6" => some "Invalid character in data element"
  | "7" => some "Invalid code value"
  | "8" => some "Invalid date"
  | "9" => some "Invalid time"
  | "10" => some "Exclusion condition violated"
  | "12" => some "Too many repetitions"
  | "13" => some "Too many components"
  | "16" => some "Composite data structure contains excess trailing delimiters"
  | _ => none

/-- AK5 transaction acknowledgment codes (`AK5_CODE_ENUM`). -/
def AK5_CODE_ENUM : String → Option String
  | "A" => some "Accepted"
  | "E" => some "Accepted but errors were noted"
  | "M" => some "Rejected, message authentication code (MAC) failed"
  | "R" => some "Rejected"
  | "W" => some "Rejected, assurance failed validity tests"
  | "X" => some "Rejected, content after decryption could not be analyzed"
  | _ => none

/-- AK9 group acknowledgment codes (`AK9_CODE_ENUM`). -/
def AK9_CODE_ENUM : String → Option String
  | "A" => some "Accepted"
  | "E" => some "Accepted but errors were noted"
  | "P" => some "Partially accepted"
  | "R" => some "Rejected"
  | _ => none

/-- Source line 168: `AK3_ERROR_ENUM[errorCode] || ` followed by the
template string starting with Error code. -/
def ak3Desc (c : String) : String := (AK3_ERROR_ENUM c).getD ("Error code " ++ c)

/-- Source line 182: `AK4_ERROR_ENUM[errorCode] || ...` with the same
fallback template. -/
def ak4Desc (c : String) : String := (AK4_ERROR_ENUM c).getD ("Error code " ++ c)

/-- Source line 115: `AK5_CODE_ENUM[ackCode] || ackCode` — the fallback is
the raw code itself. -/
def ak5Desc (c : String) : String := (AK5_CODE_ENUM c).getD c

/-- Source line 197: `AK9_CODE_ENUM[ak901] || ak901` — the fallback is the
raw code itself. -/
def ak9Desc (c : String) : String := (AK9_CODE_ENUM c).getD c

/-! ## Data model -/

/-- An input file record: `body` may be `undefined` in JS (the sandbox
supplies arbitrary records), which is the one exception path of the
classifier; `file_name` is used in log messages. -/
structure File where
  body : Option String
  file_name : String
  deriving DecidableEq, Repr

/-- Severity of a log line (`userLog.info` / `userLog.error`). -/
inductive LogLevel
  | info
  | error
  deriving DecidableEq, Repr

/-- One emitted log line. -/
structure LogEntry where
  level : LogLevel
  message : String
  deriving DecidableEq, Repr

/-- One published data tag (`publishDataTags` argument entry). -/
structure Tag where
  label : String
  value : String
  deriving DecidableEq, Repr

/-- One AK4 element error. -/
structure ElementError where
  pos : String
  error : String
  value : String
  deriving DecidableEq, Repr

/-- One AK3 segment error with its accumulated element errors. -/
structure SegmentError where
  segId : String
  segPos : String
  loopId : String
  segError : String
  elementErrors : List ElementError
  deriving DecidableEq, Repr

/-- Classifier output: `{ is997, file }` or `{ is997, file, status }`
(`status` is `none` exactly when the JS object has no `status` key). -/
structure Classification where
  is997 : Bool
  file : File
  status : Option String
  deriving DecidableEq, Repr

/-- Walker state: the mutable locals of `parse997File` plus the two
append-only sinks.  In the source, `currentSegment` aliases the last
element of `currentSegmentErrors`; here the not-current errors live in
`closedSegmentErrors` and the current one (if any) in `currentSegment`, so
the array the source flushes is `closedSegmentErrors ++ currentSegment.toList`.
`ak102` starts as the string rendering of JS `undefined`, which is what a
template literal interpolates before any AK1 assigns it. -/
structure WalkState where
  ak102 : String
  currentDocType : String
  currentControlNumber : String
  closedSegmentErrors : List SegmentError
  currentSegment : Option SegmentError
  overallStatus : String
  logs : List LogEntry
  tags : List Tag
  deriving DecidableEq, Repr

/-- The delimiters record returned by `parseDelimiters`; each field is
`none` when the JS value is `undefined` (window shorter than the offset). -/
structure Delimiters where
  elementSep : Option Char
  subElementSep : Option Char
  segmentTerminator : Option String
  deriving DecidableEq, Repr

/-! ## Envelope delimiter resolver -/

/-- Source `parseDelimiters`: element separator at offset 3, sub-element
separator at offset 104, segment terminator at offset 105, extended by the
offset-106 character when that is LF or CR.  (In a JS string an index-106
character exists only if index 105 does, so the extension is only modelled
under `some c`.) -/
def parseDelimiters (edi : String) : Delimiters :=
  { elementSep := jsCharAt edi 3
    subElementSep := jsCharAt edi 104
    segmentTerminator :=
      match jsCharAt edi 105 with
      | none => none
      | some c =>
        match jsCharAt edi 106 with
        | some c2 => if c2 = '\n' || c2 = '\r' then some (String.mk [c, c2]) else some (String.mk [c])
        | none => some (String.mk [c]) }

/-! ## safeSplit -/

/-- An `Option Char` element separator as the `Option String` JS `split`
argument. -/
def sepStr (es : Option Char) : Option String := es.map (fun c => String.mk [c])

/-- Source `safeSplit(str, sep)` without an index: an empty (falsy) string
yields `[]`, otherwise the split list. -/
def safeSplitList (s : String) (sep : Option String) : List String :=
  if s = "" then [] else jsSplit s sep

/-- Source `safeSplit(str, sep, index)`: `str` may be `undefined` (`none`,
e.g. a failed `find`); out-of-range or empty fields collapse to the
empty string. -/
def safeSplitIdx (o : Option String) (sep : Option String) (i : Nat) : String :=
  match o with
  | none => ""
  | some s => jsGetD (safeSplitList s sep) i

/-! ## Acknowledgment walker -/

/-- One element-error line of the flushed transaction message, including
its leading newline (the source appends these inside the per-segment
loop); an empty (falsy) offending value suppresses the value suffix. -/
def elemLine (el : ElementError) : String :=
  "\n    Element " ++ el.pos ++ ": " ++ el.error ++
    (if el.value = "" then "" else " [value: \"" ++ el.value ++ "\"]")

/-- Concatenation of a list of strings (the element-error lines carry
their own separators). -/
def joinAll : List String → String
  | [] => ""
  | x :: xs => x ++ joinAll xs

/-- One segment-error block of the flushed message: the Segment line (with
the loop annotation when `loopId` is truthy) followed by its element-error
lines. -/
def segLine (e : SegmentError) : String :=
  "  Segment " ++ e.segId ++ " at position " ++ e.segPos ++
    (if e.loopId = "" then "" else " (loop " ++ e.loopId ++ ")") ++
    ": " ++ e.segError ++ joinAll (e.elementErrors.map elemLine)

/-- Newline-separated join: the source appends a newline after each
segment block except the last (`if (idx < length - 1)`). -/
def joinNL : List String → String
  | [] => ""
  | [x] => x
  | x :: y :: xs => x ++ "\n" ++ joinNL (y :: xs)

/-- The consolidated transaction message built by `flushTransaction`:
header with the AK5 ack description, then (only when errors accumulated) a
newline and the newline-separated segment blocks. -/
def flushMessage (docType ctrl ackCode : String) (errs : List SegmentError) : String :=
  let base := "Transaction " ++ docType ++ " #" ++ ctrl ++ ": " ++ ak5Desc ackCode
  if errs.isEmpty then base
  else base ++ "\n" ++ joinNL (errs.map segLine)

/-- Source `flushTransaction(ackCode)`: early return when no transaction
is open (falsy `currentDocType`); otherwise log the consolidated message —
to the error log exactly when the ack code is the literal `R` — and reset
the four transaction-scoped fields. -/
def flushTransaction (ackCode : String) (st : WalkState) : WalkState :=
  if st.currentDocType = "" then st
  else
    let errs := st.closedSegmentErrors ++ st.currentSegment.toList
    let m := flushMessage st.currentDocType st.currentControlNumber ackCode errs
    { st with
      currentDocType := ""
      currentControlNumber := ""
      closedSegmentErrors := []
      currentSegment := none
      logs := st.logs ++ [⟨if ackCode = "R" then .error else .info, m⟩] }

/-- AK1 branch: capture `ak102` and publish it as a tag. -/
def stepAK1 (es : Option Char) (st : WalkState) (seg : String) : WalkState :=
  let elements := safeSplitList seg (sepStr es)
  let ak102 := jsGetD elements 2
  { st with ak102 := ak102
            tags := st.tags ++ [⟨"997 Acked Group Control Number", ak102⟩] }

/-- AK2 branch: open a transaction, resetting the error accumulators. -/
def stepAK2 (es : Option Char) (st : WalkState) (seg : String) : WalkState :=
  let elements := safeSplitList seg (sepStr es)
  { st with currentDocType := jsGetD elements 1
            currentControlNumber := jsGetD elements 2
            closedSegmentErrors := []
            currentSegment := none }

/-- AK3 branch: create a segment error and make it current (the source
pushes the same object into the array; here the previously-current error
moves to the closed list). -/
def stepAK3 (es : Option Char) (st : WalkState) (seg : String) : WalkState :=
  let elements := safeSplitList seg (sepStr es)
  let segErr : SegmentError :=
    { segId := jsGetD elements 1
      segPos := jsGetD elements 2
      loopId := jsGetD elements 3
      segError := ak3Desc (jsGetD elements 4)
      elementErrors := [] }
  { st with closedSegmentErrors := st.closedSegmentErrors ++ st.currentSegment.toList
            currentSegment := some segErr }

/-- AK4 branch: append an element error to the current segment error when
one exists (`if (currentSegment)`), otherwise do nothing. -/
def stepAK4 (es : Option Char) (st : WalkState) (seg : String) : WalkState :=
  let elements := safeSplitList seg (sepStr es)
  let elementPos := jsGetD elements 1
  let elementRef := jsGetD elements 2
  let errorCode := jsGetD elements 3
  let badValue := jsGetD elements 4
  match st.currentSegment with
  | none => st
  | some cur =>
    let el : ElementError := ⟨jsOr elementRef elementPos, ak4Desc errorCode, badValue⟩
    { st with currentSegment := some { cur with elementErrors := cur.elementErrors ++ [el] } }

/-- AK5 branch: flush the transaction with the segment's ack code. -/
def stepAK5 (es : Option Char) (st : WalkState) (seg : String) : WalkState :=
  let elements := safeSplitList seg (sepStr es)
  flushTransaction (jsGetD elements 1) st

/-- AK9 branch: log the group result, and latch the overall status on the
first code whose upper-case form is not the accepted code while the status
is still accepted (`ak901?.toUpperCase() !== 'A' && overallStatus === 'A'`). -/
def stepAK9 (fn : String) (es : Option Char) (st : WalkState) (seg : String) : WalkState :=
  let elements := safeSplitList seg (sepStr es)
  let ak901 := jsGetD elements 1
  let ackDesc := ak9Desc ak901
  let received := jsOr (jsGetD elements 3) "0"
  let accepted := jsOr (jsGetD elements 4) "0"
  let l1 : LogEntry := ⟨.info, "Functional Group Result for " ++ st.ak102 ++ ": " ++
    ackDesc ++ " - " ++ accepted ++ "/" ++ received ++ " transactions accepted"⟩
  if !(jsToUpper ak901 == "A") && st.overallStatus == "A" then
    { st with overallStatus := ak901
              logs := st.logs ++ [l1,
                ⟨.error, "997 acknowledging Group Control Number " ++ st.ak102 ++
                  " Not Accepted (AK901=" ++ ak901 ++ ") in file " ++ fn⟩] }
  else
    { st with logs := st.logs ++ [l1,
        ⟨.info, "997 acknowledging Group Control Number " ++ st.ak102 ++ " " ++
          ackDesc ++ " (AK901=" ++ ak901 ++ ") in file " ++ fn ++ "."⟩] }

/-- One iteration of the `for (const seg of rawSegments)` loop: the
if/else-if chain on the segment tag. -/
def step (fn : String) (es : Option Char) (st : WalkState) (seg : String) : WalkState :=
  if jsStartsWith seg "AK1" then stepAK1 es st seg
  else if jsStartsWith seg "AK2" then stepAK2 es st seg
  else if jsStartsWith seg "AK3" then stepAK3 es st seg
  else if jsStartsWith seg "AK4" then stepAK4 es st seg
  else if jsStartsWith seg "AK5" then stepAK5 es st seg
  else if jsStartsWith seg "AK9" then stepAK9 fn es st seg
  else st

/-- The whole segment loop. -/
def walk (fn : String) (es : Option Char) (segs : List String) (st : WalkState) : WalkState :=
  segs.foldl (step fn es) st

/-! ## File classifier -/

/-- Named pipeline stage: the ISA window `body.substr(isaStart, 106)`. -/
def isaSegOf (body : String) (isaStart : Nat) : String := jsSubstr body isaStart 106

/-- Named pipeline stage: the delimiters resolved from the ISA window. -/
def delimsOf (body : String) (isaStart : Nat) : Delimiters :=
  parseDelimiters (isaSegOf body isaStart)

/-- Named pipeline stage: tokenized segments — split on the resolved
terminator, whitespace-only entries dropped. -/
def rawSegmentsOf (body : String) (isaStart : Nat) : List String :=
  (jsSplit body (delimsOf body isaStart).segmentTerminator).filter
    (fun s => 0 < (jsTrim s).data.length)

/-- Named pipeline stage: the first data element of the first `ST` segment. -/
def st01Of (body : String) (isaStart : Nat) : String :=
  safeSplitIdx ((rawSegmentsOf body isaStart).find? (fun s => jsStartsWith s "ST"))
    (sepStr (delimsOf body isaStart).elementSep) 1

/-- The initial walker state of one file, carrying the two tags published
before the loop (ISA13 and GS06). -/
def initState (body : String) (isaStart : Nat) : WalkState :=
  let es := sepStr (delimsOf body isaStart).elementSep
  let isa13 := safeSplitIdx (some (isaSegOf body isaStart)) es 13
  let gs06 := safeSplitIdx ((rawSegmentsOf body isaStart).find? (fun s => jsStartsWith s "GS")) es 6
  { ak102 := "undefined"
    currentDocType := ""
    currentControlNumber := ""
    closedSegmentErrors := []
    currentSegment := none
    overallStatus := "A"
    logs := []
    tags := [⟨"997 Ack File Interchange Control Number", isa13⟩,
             ⟨"997 Ack File Group Control Number", gs06⟩] }

/-- The body of the `try` block of `parse997File`.  The only throwing
operation on a well-typed record is `body.indexOf` when `file.body` is
`undefined`; every later step is total on strings, so the `Except` error
carries the runtime message of that access. -/
def parse997Core (f : File) : Except String (Classification × List LogEntry × List Tag) :=
  match f.body with
  | none => Except.error "Cannot read properties of undefined (reading 'indexOf')"
  | some body =>
    match jsIndexOf body "ISA" with
    | none => Except.ok (⟨false, f, none⟩, [], [])
    | some isaStart =>
      if st01Of body isaStart = "997" then
        let final := walk f.file_name (delimsOf body isaStart).elementSep
          (rawSegmentsOf body isaStart) (initState body isaStart)
        Except.ok (⟨true, f, some final.overallStatus⟩, final.logs, final.tags)
      else Except.ok (⟨false, f, none⟩, [], [])

/-- Source `parse997File`: the `try`/`catch` — a thrown error is logged
with the file name and the error message and absorbed into
`{ is997: false, file }`. -/
def parse997File (f : File) : Classification × List LogEntry × List Tag :=
  match parse997Core f with
  | Except.ok r => r
  | Except.error msg =>
    (⟨false, f, none⟩,
     [⟨.error, "Error processing file " ++ f.file_name ++ ": " ++ msg⟩], [])

/-- The classification component of `parse997File`. -/
def classify (f : File) : Classification := (parse997File f).1

/-! ## Batch disposition engine -/

/-- Batch outcome (`returnSkipped` / `returnError` / `returnSuccess`). -/
inductive Disposition
  | skipped
  | error
  | success
  deriving DecidableEq, Repr

/-- One iteration of the module-level loop over `sourceFiles`,
accumulating `(payload, accepted, rejected)`.  The JS guard is
`result.is997 && result.file`; `result.file` is an object reference and
always truthy. -/
def batchStep (acc : List File × List File × List File) (f : File) :
    List File × List File × List File :=
  let result := classify f
  if result.is997 then
    if result.status == some "A" then
      (acc.1 ++ [result.file], acc.2.1 ++ [result.file], acc.2.2)
    else
      (acc.1 ++ [result.file], acc.2.1, acc.2.2 ++ [result.file])
  else acc

/-- The module-level batch logic: accumulate, then pick the disposition
and its payload. -/
def processBatch (files : List File) : Disposition × List File :=
  let acc := files.foldl batchStep ([], [], [])
  if acc.1.length = 0 then (.skipped, [])
  else if acc.2.2.length > 0 then (.error, acc.2.2)
  else (.success, acc.2.1)

/-! ## Derived notions used by the theorems -/

/-- The AK9 code of a segment: element 1 of its split, or-empty. -/
def ak9CodeOf (es : Option Char) (seg : String) : String :=
  jsGetD (safeSplitList seg (sepStr es)) 1

/-- The AK9 codes of a walk that fail the source's acceptance test
`ak901?.toUpperCase() !== 'A'`, in stream order. -/
def nonAccCodes (es : Option Char) (segs : List String) : List String :=
  ((segs.filter (fun s => jsStartsWith s "AK9")).map (ak9CodeOf es)).filter
    (fun c => !(jsToUpper c == "A"))

/-- A file the batch loop counts: `result.is997` (with `result.file`
always truthy). -/
def is997F (f : File) : Bool := (classify f).is997

/-- A file the batch loop counts as accepted: `result.status === 'A'`. -/
def acceptedF (f : File) : Bool :=
  (classify f).is997 && ((classify f).status == some "A")

/-- A file the batch loop counts as rejected. -/
def rejectedF (f : File) : Bool :=
  (classify f).is997 && !((classify f).status == some "A")

/-- Substring occurrence (used to state that the flushed message carries
every accumulated error description). -/
def containsStr (hay sub : String) : Prop := sub.data <:+: hay.data

/-! ## Concrete fixtures (witness inputs) -/

/-- A 106-character ISA segment: element separator at offset 3, terminator
at offset 105. -/
def isaBlock : String := "ISA*" ++ String.mk (List.replicate 101 '0') ++ "~"

/-- A well-formed accepted 997. -/
def accBody : String :=
  isaBlock ++ "GS*FA*S*R*20240101*1200*77~ST*997*0001~AK1*PO*123~AK2*850*0001~AK5*A~AK9*A*1*1*1~SE*4*0001~GE*1*77~IEA*1*000000001~"

def accFile : File := ⟨some accBody, "acc.edi"⟩

/-- A rejected 997 with one AK3 and one nested AK4. -/
def rejBody : String :=
  isaBlock ++ "GS*FA*S*R*20240101*1200*77~ST*997*0001~AK1*PO*123~AK2*850*0001~AK3*N1*2**1~AK4*3**1*BAD~AK5*R~AK9*R*1*1*0~SE*4*0001~GE*1*77~IEA*1*000000001~"

def rejFile : File := ⟨some rejBody, "rej.edi"⟩

/-- A 997 whose AK9 code is the lower-case letter a. -/
def lowBody : String :=
  isaBlock ++ "GS*FA*S*R*20240101*1200*77~ST*997*0001~AK1*PO*123~AK9*a*1*1*1~SE*4*0001~GE*1*77~IEA*1*000000001~"

def lowFile : File := ⟨some lowBody, "low.edi"⟩

/-- A non-EDI file (no ISA marker). -/
def plainFile : File := ⟨some "plain text", "plain.txt"⟩

/-- A record whose body is JS `undefined`: the classifier's exception path. -/
def noBodyFile : File := ⟨none, "nobody.edi"⟩

/-- A 997 whose segment terminator at offset 105 is followed by a line
feed at offset 106 (CRLF-style interchange). -/
def crlfBody : String :=
  isaBlock ++ "\nGS*FA*S*R*20240101*1200*77~\nST*997*0001~\nAK1*PO*123~\nAK9*A*1*1*1~\nSE*4*0001~\nGE*1*77~\nIEA*1*000000001~"

def crlfFile : File := ⟨some crlfBody, "crlf.edi"⟩

/-- The walker state at the top of the loop. -/
def iState : WalkState :=
  ⟨"undefined", "", "", [], none, "A", [], []⟩

/-- A state with an open transaction and accumulated errors. -/
def wOpen : WalkState :=
  ⟨"123", "850", "0001",
   [⟨"N1", "2", "", "Unexpected segment", [⟨"3", "Mandatory data element missing", "BAD"⟩]⟩],
   some ⟨"REF", "4", "0100", "Mandatory segment missing", []⟩,
   "A", [], []⟩

/-- A state with no current segment error. -/
def wNoSeg : WalkState :=
  ⟨"123", "850", "0001", [], none, "A", [], []⟩

/-- A state with no open transaction. -/
def wNoTx : WalkState :=
  ⟨"123", "", "", [⟨"N1", "2", "", "Unexpected segment", []⟩],
   some ⟨"REF", "4", "", "Mandatory segment missing", []⟩, "A", [], []⟩

/-! ## Basic lemmas -/

lemma data_app (s t : String) : (s ++ t).data = s.data ++ t.data := by
  cases s; cases t; rfl

lemma jsStartsWith_iff (s p : String) :
    jsStartsWith s p = true ↔ s.data.take p.data.length = p.data := by
  simp [jsStartsWith]

lemma take3_of_sw (seg p : String) (c : Char) (hp : p.data = ['A', 'K', c])
    (h : jsStartsWith seg p = true) : seg.data.take 3 = ['A', 'K', c] := by
  have h2 := (jsStartsWith_iff seg p).1 h
  rw [hp] at h2
  simpa using h2

lemma sw_false_of_take3 (seg p : String) (c d : Char)
    (h : seg.data.take 3 = ['A', 'K', c]) (hp : p.data = ['A', 'K', d])
    (hne : c ≠ d) : jsStartsWith seg p = false := by
  simp [jsStartsWith, hp, h, hne]

/-! Branch selection: a segment matching one AK tag reaches exactly that
branch of the if/else-if chain. -/

lemma step_eq_AK1 (fn : String) (es : Option Char) (st : WalkState) (seg : String)
    (h : jsStartsWith seg "AK1" = true) : step fn es st seg = stepAK1 es st seg := by
  simp [step, h]

lemma step_eq_AK2 (fn : String) (es : Option Char) (st : WalkState) (seg : String)
    (h : jsStartsWith seg "AK2" = true) : step fn es st seg = stepAK2 es st seg := by
  have h3 := take3_of_sw seg "AK2" '2' rfl h
  simp [step, h, sw_false_of_take3 seg "AK1" '2' '1' h3 rfl (by decide)]

lemma step_eq_AK3 (fn : String) (es : Option Char) (st : WalkState) (seg : String)
    (h : jsStartsWith seg "AK3" = true) : step fn es st seg = stepAK3 es st seg := by
  have h3 := take3_of_sw seg "AK3" '3' rfl h
  simp [step, h, sw_false_of_take3 seg "AK1" '3' '1' h3 rfl (by decide),
    sw_false_of_take3 seg "AK2" '3' '2' h3 rfl (by decide)]

lemma step_eq_AK4 (fn : String) (es : Option Char) (st : WalkState) (seg : String)
    (h : jsStartsWith seg "AK4" = true) : step fn es st seg = stepAK4 es st seg := by
  have h3 := take3_of_sw seg "AK4" '4' rfl h
  simp [step, h, sw_false_of_take3 seg "AK1" '4' '1' h3 rfl (by decide),
    sw_false_of_take3 seg "AK2" '4' '2' h3 rfl (by decide),
    sw_false_of_take3 seg "AK3" '4' '3' h3 rfl (by decide)]

lemma step_eq_AK5 (fn : String) (es : Option Char) (st : WalkState) (seg : String)
    (h : jsStartsWith seg "AK5" = true) : step fn es st seg = stepAK5 es st seg := by
  have h3 := take3_of_sw seg "AK5" '5' rfl h
  simp [step, h, sw_false_of_take3 seg "AK1" '5' '1' h3 rfl (by decide),
    sw_false_of_take3 seg "AK2" '5' '2' h3 rfl (by decide),
    sw_false_of_take3 seg "AK3" '5' '3' h3 rfl (by decide),
    sw_false_of_take3 seg "AK4" '5' '4' h3 rfl (by decide)]

lemma step_eq_AK9 (fn : String) (es : Option Char) (st : WalkState) (seg : String)
    (h : jsStartsWith seg "AK9" = true) : step fn es st seg = stepAK9 fn es st seg := by
  have h3 := take3_of_sw seg "AK9" '9' rfl h
  simp [step, h, sw_false_of_take3 seg "AK1" '9' '1' h3 rfl (by decide),
    sw_false_of_take3 seg "AK2" '9' '2' h3 rfl (by decide),
    sw_false_of_take3 seg "AK3" '9' '3' h3 rfl (by decide),
    sw_false_of_take3 seg "AK4" '9' '4' h3 rfl (by decide),
    sw_false_of_take3 seg "AK5" '9' '5' h3 rfl (by decide)]

/-! Status preservation for the non-AK9 branches. -/

lemma flush_status (a : String) (st : WalkState) :
    (flushTransaction a st).overallStatus = st.overallStatus := by
  unfold flushTransaction
  split <;> rfl

lemma stepAK4_status (es : Option Char) (st : WalkState) (seg : String) :
    (stepAK4 es st seg).overallStatus = st.overallStatus := by
  unfold stepAK4
  cases st.currentSegment <;> rfl

lemma step_status_of_not_AK9 (fn : String) (es : Option Char) (st : WalkState) (seg : String)
    (h : jsStartsWith seg "AK9" = false) :
    (step fn es st seg).overallStatus = st.overallStatus := by
  by_cases h1 : jsStartsWith seg "AK1" = true
  · rw [step_eq_AK1 fn es st seg h1]; rfl
  by_cases h2 : jsStartsWith seg "AK2" = true
  · rw [step_eq_AK2 fn es st seg h2]; rfl
  by_cases h3 : jsStartsWith seg "AK3" = true
  · rw [step_eq_AK3 fn es st seg h3]; rfl
  by_cases h4 : jsStartsWith seg "AK4" = true
  · rw [step_eq_AK4 fn es st seg h4]
    exact stepAK4_status es st seg
  by_cases h5 : jsStartsWith seg "AK5" = true
  · rw [step_eq_AK5 fn es st seg h5]
    exact flush_status _ st
  simp [step, h1, h2, h3, h4, h5, h]

lemma stepAK9_status_latch (fn : String) (es : Option Char) (st : WalkState) (seg : String)
    (hc : jsToUpper (ak9CodeOf es seg) ≠ "A") (hA : st.overallStatus = "A") :
    (stepAK9 fn es st seg).overallStatus = ak9CodeOf es seg := by
  have hc2 : jsToUpper (jsGetD (safeSplitList seg (sepStr es)) 1) ≠ "A" := hc
  show (stepAK9 fn es st seg).overallStatus = jsGetD (safeSplitList seg (sepStr es)) 1
  simp [stepAK9, hc2, hA]

lemma stepAK9_status_keep (fn : String) (es : Option Char) (st : WalkState) (seg : String)
    (h : jsToUpper (ak9CodeOf es seg) = "A" ∨ st.overallStatus ≠ "A") :
    (stepAK9 fn es st seg).overallStatus = st.overallStatus := by
  rcases h with h | h
  · have h2 : jsToUpper (jsGetD (safeSplitList seg (sepStr es)) 1) = "A" := h
    simp [stepAK9, h2]
  · simp [stepAK9, h]

lemma nonAccCodes_cons (es : Option Char) (seg : String) (rest : List String) :
    nonAccCodes es (seg :: rest) =
      (if jsStartsWith seg "AK9" = true then
        (if jsToUpper (ak9CodeOf es seg) = "A" then nonAccCodes es rest
         else ak9CodeOf es seg :: nonAccCodes es rest)
       else nonAccCodes es rest) := by
  by_cases h9 : jsStartsWith seg "AK9" = true
  · by_cases hc : jsToUpper (ak9CodeOf es seg) = "A" <;>
      simp [nonAccCodes, List.filter_cons, h9, hc]
  · simp [nonAccCodes, List.filter_cons, h9]

lemma walk_nil (fn : String) (es : Option Char) (st : WalkState) : walk fn es [] st = st := rfl

lemma walk_cons (fn : String) (es : Option Char) (seg : String) (rest : List String) (st : WalkState) :
    walk fn es (seg :: rest) st = walk fn es rest (step fn es st seg) := rfl

lemma toUpper_A_ne (c : String) (hc : jsToUpper c ≠ "A") : c ≠ "A" := by
  intro h
  exact hc (by rw [h]; rfl)

/-- First-error-wins characterization of the walker status: from an
accepted status the final status is the first non-accepted AK9 code (else
the accepted code); a non-accepted status is never overwritten. -/
lemma walk_status (fn : String) (es : Option Char) :
    ∀ (segs : List String) (st : WalkState),
      (walk fn es segs st).overallStatus =
        if st.overallStatus = "A" then (nonAccCodes es segs).headD "A"
        else st.overallStatus := by
  intro segs
  induction segs with
  | nil =>
    intro st
    rw [walk_nil]
    split
    · next h => simp [nonAccCodes, h]
    · rfl
  | cons seg rest ih =>
    intro st
    rw [walk_cons, nonAccCodes_cons]
    by_cases h9 : jsStartsWith seg "AK9" = true
    · rw [step_eq_AK9 fn es st seg h9]
      by_cases hc : jsToUpper (ak9CodeOf es seg) = "A"
      · rw [ih, stepAK9_status_keep fn es st seg (Or.inl hc)]
        simp [h9, hc]
      · by_cases hA : st.overallStatus = "A"
        · rw [ih, stepAK9_status_latch fn es st seg hc hA]
          have hne := toUpper_A_ne (ak9CodeOf es seg) hc
          simp [h9, hc, hA, hne]
        · rw [ih, stepAK9_status_keep fn es st seg (Or.inr hA)]
          simp [hA]
    · rw [ih, step_status_of_not_AK9 fn es st seg (by simpa using h9)]
      simp [h9]

/-! ## Classifier and batch lemmas -/

/-- Every return path of the classifier carries the input file record. -/
lemma classify_file (f : File) : (classify f).file = f := by
  unfold classify parse997File
  cases hc : parse997Core f with
  | error msg => rfl
  | ok r =>
    unfold parse997Core at hc
    rcases f with ⟨body, name⟩
    cases body with
    | none => cases hc
    | some b =>
      dsimp only at hc
      cases h : jsIndexOf b "ISA" with
      | none =>
        rw [h] at hc
        injection hc with h2
        rw [← h2]
      | some i =>
        rw [h] at hc
        dsimp only at hc
        split at hc <;> (injection hc with h2; rw [← h2])

lemma classify_is997_cases (f : File) :
    (classify f).is997 = true ∨ (classify f).is997 = false := by
  cases (classify f).is997 <;> simp

/-- The batch accumulator is the triple of filters of the input order. -/
lemma batchFold_eq (files : List File) :
    ∀ (p a r : List File),
      files.foldl batchStep (p, a, r) =
        (p ++ files.filter is997F, a ++ files.filter acceptedF, r ++ files.filter rejectedF) := by
  induction files with
  | nil => intro p a r; simp
  | cons f rest ih =>
    intro p a r
    have hstep : batchStep (p, a, r) f =
        (p ++ List.filter is997F [f], a ++ List.filter acceptedF [f],
         r ++ List.filter rejectedF [f]) := by
      by_cases h1 : (classify f).is997 = true
      · by_cases h2 : ((classify f).status == some "A") = true <;>
          simp [batchStep, is997F, acceptedF, rejectedF, h1, h2, List.filter_cons,
            classify_file f]
      · have h1f : (classify f).is997 = false := by simpa using h1
        simp [batchStep, is997F, acceptedF, rejectedF, h1f, List.filter_cons]
    have hf : ∀ (q : File → Bool),
        List.filter q [f] ++ List.filter q rest = List.filter q (f :: rest) := by
      intro q
      by_cases h : q f = true <;> simp [List.filter_cons, h]
    rw [List.foldl_cons, hstep, ih, List.append_assoc, List.append_assoc,
      List.append_assoc, hf is997F, hf acceptedF, hf rejectedF]

/-- The disposition decision over the filter characterization. -/
lemma processBatch_eq (files : List File) :
    processBatch files =
      (if files.filter is997F = [] then (Disposition.skipped, [])
       else if files.filter rejectedF ≠ [] then (Disposition.error, files.filter rejectedF)
       else (Disposition.success, files.filter acceptedF)) := by
  unfold processBatch
  rw [batchFold_eq files [] [] []]
  simp only [List.nil_append]
  by_cases h1 : files.filter is997F = []
  · rw [if_pos (by simp [h1]), if_pos h1]
  · rw [if_neg (fun hlen => h1 (List.length_eq_zero.mp hlen)), if_neg h1]
    by_cases h2 : files.filter rejectedF = []
    · rw [if_neg (by simp [h2]), if_neg (by simp [h2])]
    · have h2len : 0 < (files.filter rejectedF).length := List.length_pos.mpr h2
      rw [if_pos h2len, if_pos h2]

/-- Whatever the disposition, the payload is one of the three filters. -/
lemma payload_sub (files : List File) (f : File) (h : f ∈ (processBatch files).2) :
    (classify f).is997 = true := by
  rw [processBatch_eq files] at h
  split at h
  · simp at h
  · split at h
    · have h2 := List.of_mem_filter h
      unfold rejectedF at h2
      rw [Bool.and_eq_true] at h2
      exact h2.1
    · have h2 := List.of_mem_filter h
      unfold acceptedF at h2
      rw [Bool.and_eq_true] at h2
      exact h2.1

/-- A file classified as not a 997 never reaches any payload. -/
lemma not997_excluded (f : File) (hf : (classify f).is997 = false) (files : List File) :
    f ∉ (processBatch files).2 := by
  intro hmem
  rw [payload_sub files f hmem] at hf
  cases hf

/-! ## Substring machinery for the flushed message -/

lemma containsStr_self (s : String) : containsStr s s := ⟨[], [], by simp⟩

lemma containsStr_appL (a b sub : String) (h : containsStr b sub) :
    containsStr (a ++ b) sub := by
  obtain ⟨u, v, huv⟩ := h
  exact ⟨a.data ++ u, v, by rw [data_app, ← huv]; simp [List.append_assoc]⟩

lemma containsStr_appR (a b sub : String) (h : containsStr a sub) :
    containsStr (a ++ b) sub := by
  obtain ⟨u, v, huv⟩ := h
  exact ⟨u, v ++ b.data, by rw [data_app, ← huv]; simp [List.append_assoc]⟩

lemma containsStr_trans (hay mid sub : String) (h1 : containsStr hay mid)
    (h2 : containsStr mid sub) : containsStr hay sub := h2.trans h1

lemma joinAll_mem (l : List String) (x : String) (h : x ∈ l) :
    containsStr (joinAll l) x := by
  induction l with
  | nil => cases h
  | cons y ys ih =>
    rcases List.mem_cons.1 h with rfl | hmem
    · exact containsStr_appR _ _ _ (containsStr_self _)
    · exact containsStr_appL _ _ _ (ih hmem)

lemma joinNL_mem (l : List String) (x : String) (h : x ∈ l) :
    containsStr (joinNL l) x := by
  induction l with
  | nil => cases h
  | cons y ys ih =>
    cases ys with
    | nil =>
      rcases List.mem_cons.1 h with rfl | hmem
      · exact containsStr_self _
      · cases hmem
    | cons z zs =>
      rcases List.mem_cons.1 h with rfl | hmem
      · exact containsStr_appR _ _ _ (containsStr_appR _ _ _ (containsStr_self _))
      · exact containsStr_appL _ _ _ (ih hmem)

lemma elemLine_contains (el : ElementError) : containsStr (elemLine el) el.error := by
  unfold elemLine
  exact containsStr_appR _ _ _ (containsStr_appL _ _ _ (containsStr_self _))

lemma segLine_contains_seg (e : SegmentError) : containsStr (segLine e) e.segError := by
  unfold segLine
  exact containsStr_appR _ _ _ (containsStr_appL _ _ _ (containsStr_self _))

lemma segLine_contains_elem (e : SegmentError) (el : ElementError)
    (h : el ∈ e.elementErrors) : containsStr (segLine e) el.error := by
  unfold segLine
  refine containsStr_trans _ (elemLine el) _ ?_ (elemLine_contains el)
  exact containsStr_appL _ _ _ (joinAll_mem _ _ (List.mem_map_of_mem elemLine h))

lemma flushMessage_contains_ack (docType ctrl ackCode : String) (errs : List SegmentError) :
    containsStr (flushMessage docType ctrl ackCode errs) (ak5Desc ackCode) := by
  unfold flushMessage
  split
  · exact containsStr_appL _ _ _ (containsStr_self _)
  · exact containsStr_appR _ _ _
      (containsStr_appR _ _ _ (containsStr_appL _ _ _ (containsStr_self _)))

lemma flushMessage_contains_err (docType ctrl ackCode : String) (errs : List SegmentError)
    (e : SegmentError) (he : e ∈ errs) :
    containsStr (flushMessage docType ctrl ackCode errs) (segLine e) := by
  unfold flushMessage
  have hne : errs.isEmpty = false := by
    cases errs with
    | nil => cases he
    | cons x xs => rfl
  rw [hne]
  simp only [Bool.false_eq_true, if_false]
  exact containsStr_appL _ _ _ (joinNL_mem _ _ (List.mem_map_of_mem segLine he))

/-- Flushing an open transaction appends exactly one log entry and resets
the four transaction-scoped fields, explicitly. -/
lemma flushTransaction_open (ackCode : String) (st : WalkState)
    (hdoc : st.currentDocType ≠ "") :
    flushTransaction ackCode st =
      { st with
        currentDocType := ""
        currentControlNumber := ""
        closedSegmentErrors := []
        currentSegment := none
        logs := st.logs ++ [⟨if ackCode = "R" then .error else .info,
          flushMessage st.currentDocType st.currentControlNumber ackCode
            (st.closedSegmentErrors ++ st.currentSegment.toList)⟩] } := by
  unfold flushTransaction
  rw [if_neg hdoc]

/-! ## Classifier characterization -/

/-- A gated 997 file is classified with the first-error-wins status of its
walk. -/
lemma classify_997 (f : File) (body : String) (i : Nat) (hb : f.body = some body)
    (hisa : jsIndexOf body "ISA" = some i) (hst : st01Of body i = "997") :
    (classify f).is997 = true ∧
    (classify f).status =
      some ((nonAccCodes (delimsOf body i).elementSep (rawSegmentsOf body i)).headD "A") := by
  rcases f with ⟨fb, name⟩
  cases hb
  unfold classify parse997File parse997Core
  dsimp only
  rw [hisa]
  dsimp only
  rw [if_pos hst]
  refine ⟨rfl, ?_⟩
  have hw := walk_status name (delimsOf body i).elementSep (rawSegmentsOf body i)
    (initState body i)
  have hinit : (initState body i).overallStatus = "A" := rfl
  rw [hinit, if_pos rfl] at hw
  exact congrArg some hw

/-- When every AK9 code of the walk passes the case-insensitive acceptance
test, the non-accepted list is empty. -/
lemma nonAccCodes_nil (es : Option Char) (segs : List String)
    (h : ∀ seg ∈ segs, jsStartsWith seg "AK9" = true →
      jsToUpper (ak9CodeOf es seg) = "A") : nonAccCodes es segs = [] := by
  unfold nonAccCodes
  rw [List.filter_eq_nil_iff]
  intro c hc
  obtain ⟨s, hs, rfl⟩ := List.mem_map.1 hc
  obtain ⟨hmem, hsw⟩ := List.mem_filter.1 hs
  simp [h s hmem hsw]

/-- Removing a not-997 file from a batch leaves the result unchanged. -/
lemma not997_removal (f : File) (hf : (classify f).is997 = false) (l1 l2 : List File) :
    processBatch (l1 ++ f :: l2) = processBatch (l1 ++ l2) := by
  have hno : ∀ (p : File → Bool), (p f = false) →
      List.filter p (l1 ++ f :: l2) = List.filter p (l1 ++ l2) := by
    intro p hp
    simp [List.filter_append, List.filter_cons, hp]
  have h997 : is997F f = false := hf
  have hacc : acceptedF f = false := by unfold acceptedF; simp [hf]
  have hrej : rejectedF f = false := by unfold rejectedF; simp [hf]
  rw [processBatch_eq, processBatch_eq, hno is997F h997, hno acceptedF hacc,
    hno rejectedF hrej]

/-! ## Claim theorems -/

set_option maxRecDepth 40000

/-- C1: for every batch, if no file is classified as a 997 the disposition
is Skipped with an empty payload; otherwise if at least one classified 997
has a status other than the accepted code the disposition is Error with
exactly the rejected 997 files; otherwise Success with exactly the
accepted 997 files; and non-997 files appear in no payload. -/
theorem claim_C1 (files : List File) :
    (processBatch files =
      if files.filter (fun f => (classify f).is997) = [] then (Disposition.skipped, [])
      else if files.filter (fun f => (classify f).is997 && !((classify f).status == some "A")) ≠ [] then
        (Disposition.error,
         files.filter (fun f => (classify f).is997 && !((classify f).status == some "A")))
      else
        (Disposition.success,
         files.filter (fun f => (classify f).is997 && ((classify f).status == some "A"))))
    ∧ ∀ f ∈ (processBatch files).2, (classify f).is997 = true := by
  constructor
  · rw [processBatch_eq files]
    rfl
  · intro f hf
    exact payload_sub files f hf

/-- C1 witness: a concrete batch of one non-997 file and one rejected 997
gives the Error disposition with exactly the rejected file, which is
classified as a 997. -/
theorem claim_C1_witness :
    processBatch [plainFile, rejFile] = (Disposition.error, [rejFile]) ∧
    (classify rejFile).is997 = true := by
  refine ⟨by decide, ?_⟩
  exact (claim_C1 [plainFile, rejFile]).2 rejFile (by decide)

/-- C2: a file whose content has no ISA marker, or whose first ST
segment's first data element is not the literal 997, is classified
`{ is997: false, file }` with no log or tag emission, and is excluded from
every output payload. -/
theorem claim_C2 (f : File) (body : String) (hb : f.body = some body)
    (h : jsIndexOf body "ISA" = none ∨
      ∀ i, jsIndexOf body "ISA" = some i → st01Of body i ≠ "997") :
    parse997File f = (⟨false, f, none⟩, [], []) ∧
    ∀ files : List File, f ∉ (processBatch files).2 := by
  have hcls : parse997File f = (⟨false, f, none⟩, [], []) := by
    rcases f with ⟨fb, name⟩
    cases hb
    unfold parse997File parse997Core
    dsimp only
    cases hidx : jsIndexOf body "ISA" with
    | none => rfl
    | some i =>
      dsimp only
      rcases h with h | h
      · rw [hidx] at h
        cases h
      · rw [if_neg (h i hidx)]
  have h997 : (classify f).is997 = false := by
    unfold classify
    rw [hcls]
  exact ⟨hcls, fun files => not997_excluded f h997 files⟩

/-- C2 witness: the plain-text file is classified not-997 with no output. -/
theorem claim_C2_witness :
    parse997File plainFile = (⟨false, plainFile, none⟩, [], []) :=
  (claim_C2 plainFile "plain text" rfl (Or.inl (by decide))).1

/-- C3: the overall status starts at the accepted code, is latched by the
first AK9 code failing the acceptance test, is never overwritten once
non-accepted, and the classified file's status is the latched code,
defaulting to the accepted code when no AK9 is present. -/
theorem claim_C3 :
    (∀ (fn : String) (es : Option Char) (segs : List String) (st : WalkState),
      st.overallStatus = "A" →
        (walk fn es segs st).overallStatus = (nonAccCodes es segs).headD "A")
    ∧ (∀ (fn : String) (es : Option Char) (segs : List String) (st : WalkState),
      st.overallStatus ≠ "A" →
        (walk fn es segs st).overallStatus = st.overallStatus)
    ∧ (∀ (f : File) (body : String) (i : Nat), f.body = some body →
        jsIndexOf body "ISA" = some i → st01Of body i = "997" →
        (classify f).status =
          some ((nonAccCodes (delimsOf body i).elementSep (rawSegmentsOf body i)).headD "A")) := by
  refine ⟨?_, ?_, ?_⟩
  · intro fn es segs st h
    rw [walk_status, if_pos h]
  · intro fn es segs st h
    rw [walk_status, if_neg h]
  · intro f body i hb hisa hst
    exact (classify_997 f body i hb hisa hst).2

/-- C3 witness: a walk over two AK9 segments latches the first rejected
code and keeps it. -/
theorem claim_C3_witness :
    (walk "w" (some '*') ["AK9*R*1*1*0", "AK9*E*1*0*1"] iState).overallStatus = "R" := by
  have h := claim_C3.1 "w" (some '*') ["AK9*R*1*1*0", "AK9*E*1*0*1"] iState rfl
  rw [h]
  decide

/-- C4: in the composed flow the resolver only ever sees the 106-character
window, whose index 106 is out of range, so the CR/LF extension branch of
`parseDelimiters` never fires: on a concrete interchange whose offset-105
terminator is followed by a line feed, the resolved terminator stays one
character (the claim expects two) and the file is then misclassified as
not a 997. -/
theorem claim_C4 :
    (∀ (body : String) (isaStart : Nat),
      (parseDelimiters (jsSubstr body isaStart 106)).segmentTerminator =
        (jsCharAt (jsSubstr body isaStart 106) 105).map (fun c => String.mk [c]))
    ∧ jsIndexOf crlfBody "ISA" = some 0
    ∧ jsCharAt crlfBody 106 = some '\n'
    ∧ (delimsOf crlfBody 0).segmentTerminator = some "~"
    ∧ some "~" ≠ some (String.mk ['~', '\n'])
    ∧ (classify crlfFile).is997 = false := by
  refine ⟨?_, by decide, by decide, by decide, by decide, by decide⟩
  intro body isaStart
  have hlen : (jsSubstr body isaStart 106).data.length ≤ 106 := by
    unfold jsSubstr
    simp [List.length_take]
  have h106 : jsCharAt (jsSubstr body isaStart 106) 106 = none := by
    unfold jsCharAt
    exact List.getElem?_eq_none hlen
  unfold parseDelimiters
  dsimp only
  simp only [h106]
  cases h105 : jsCharAt (jsSubstr body isaStart 106) 105 <;> simp

/-- C5 counterexample: for the AK5 and AK9 tables an absent code maps to
the code itself, not to the Error code fallback the claim states. -/
theorem claim_C5_counterexample :
    ak5Desc "Z" = "Z" ∧ ak5Desc "Z" ≠ "Error code Z" ∧
    ak9Desc "Q" = "Q" ∧ ak9Desc "Q" ≠ "Error code Q" := by
  decide

/-- C5 amended: a code present in any of the four tables maps to its
documented description; a code absent from the AK3/AK4 tables maps to the
Error code fallback string, while a code absent from the AK5/AK9 tables
maps to the raw code itself. -/
theorem claim_C5 :
    (∀ c d, AK3_ERROR_ENUM c = some d → ak3Desc c = d)
    ∧ (∀ c, AK3_ERROR_ENUM c = none → ak3Desc c = "Error code " ++ c)
    ∧ (∀ c d, AK4_ERROR_ENUM c = some d → ak4Desc c = d)
    ∧ (∀ c, AK4_ERROR_ENUM c = none → ak4Desc c = "Error code " ++ c)
    ∧ (∀ c d, AK5_CODE_ENUM c = some d → ak5Desc c = d)
    ∧ (∀ c, AK5_CODE_ENUM c = none → ak5Desc c = c)
    ∧ (∀ c d, AK9_CODE_ENUM c = some d → ak9Desc c = d)
    ∧ (∀ c, AK9_CODE_ENUM c = none → ak9Desc c = c) := by
  refine ⟨?_, ?_, ?_, ?_, ?_, ?_, ?_, ?_⟩
  · intro c d h; unfold ak3Desc; rw [h]; rfl
  · intro c h; unfold ak3Desc; rw [h]; rfl
  · intro c d h; unfold ak4Desc; rw [h]; rfl
  · intro c h; unfold ak4Desc; rw [h]; rfl
  · intro c d h; unfold ak5Desc; rw [h]; rfl
  · intro c h; unfold ak5Desc; rw [h]; rfl
  · intro c d h; unfold ak9Desc; rw [h]; rfl
  · intro c h; unfold ak9Desc; rw [h]; rfl

/-- C5 witness: sample lookups through each table and each fallback. -/
theorem claim_C5_witness :
    ak3Desc "1" = "Unrecognized segment ID" ∧
    ak3Desc "99" = "Error code 99" ∧
    ak4Desc "16" = "Composite data structure contains excess trailing delimiters" ∧
    ak4Desc "11" = "Error code 11" ∧
    ak5Desc "M" = "Rejected, message authentication code (MAC) failed" ∧
    ak5Desc "Z" = "Z" ∧
    ak9Desc "P" = "Partially accepted" ∧
    ak9Desc "Q" = "Q" :=
  ⟨claim_C5.1 "1" _ rfl,
   claim_C5.2.1 "99" rfl,
   claim_C5.2.2.1 "16" _ rfl,
   claim_C5.2.2.2.1 "11" rfl,
   claim_C5.2.2.2.2.1 "M" _ rfl,
   claim_C5.2.2.2.2.2.1 "Z" rfl,
   claim_C5.2.2.2.2.2.2.1 "P" _ rfl,
   claim_C5.2.2.2.2.2.2.2 "Q" rfl⟩

/-- C6: a file whose walk raises is absorbed at the classifier boundary:
one error log carrying the file name and the message, classification
`{ is997: false, file }`, exclusion from every payload, and no effect on
the rest of the batch. -/
theorem claim_C6 (f : File) (msg : String) (h : parse997Core f = Except.error msg) :
    parse997File f = (⟨false, f, none⟩,
      [⟨LogLevel.error, "Error processing file " ++ f.file_name ++ ": " ++ msg⟩], [])
    ∧ (∀ files : List File, f ∉ (processBatch files).2)
    ∧ (∀ l1 l2 : List File, processBatch (l1 ++ f :: l2) = processBatch (l1 ++ l2)) := by
  have hp : parse997File f = (⟨false, f, none⟩,
      [⟨LogLevel.error, "Error processing file " ++ f.file_name ++ ": " ++ msg⟩], []) := by
    unfold parse997File
    rw [h]
  have h997 : (classify f).is997 = false := by
    unfold classify
    rw [hp]
  exact ⟨hp, fun files => not997_excluded f h997 files,
    fun l1 l2 => not997_removal f h997 l1 l2⟩

/-- C6 witness: the undefined-body record takes the exception path, and
the single error log names the file and the runtime message. -/
theorem claim_C6_witness :
    parse997File noBodyFile = (⟨false, noBodyFile, none⟩,
      [⟨LogLevel.error,
        "Error processing file nobody.edi: Cannot read properties of undefined (reading 'indexOf')"⟩],
      []) :=
  (claim_C6 noBodyFile _ rfl).1

/-- C7: an AK5 segment closing an open transaction appends exactly one
consolidated log entry — routed to the error log exactly when the ack code
is the literal R — whose message carries the ack-code description and
every accumulated segment and element error, and resets the document type,
control number, accumulated segment errors and current segment-error
cursor, leaving the rest of the state unchanged. -/
theorem claim_C7 (fn : String) (es : Option Char) (st : WalkState) (seg : String)
    (hseg : jsStartsWith seg "AK5" = true) (hopen : st.currentDocType ≠ "") :
    (step fn es st seg).logs = st.logs ++
      [⟨if jsGetD (safeSplitList seg (sepStr es)) 1 = "R" then LogLevel.error else LogLevel.info,
        flushMessage st.currentDocType st.currentControlNumber
          (jsGetD (safeSplitList seg (sepStr es)) 1)
          (st.closedSegmentErrors ++ st.currentSegment.toList)⟩]
    ∧ ((if jsGetD (safeSplitList seg (sepStr es)) 1 = "R" then LogLevel.error else LogLevel.info)
        = LogLevel.error ↔ jsGetD (safeSplitList seg (sepStr es)) 1 = "R")
    ∧ containsStr
        (flushMessage st.currentDocType st.currentControlNumber
          (jsGetD (safeSplitList seg (sepStr es)) 1)
          (st.closedSegmentErrors ++ st.currentSegment.toList))
        (ak5Desc (jsGetD (safeSplitList seg (sepStr es)) 1))
    ∧ (∀ e ∈ st.closedSegmentErrors ++ st.currentSegment.toList,
        containsStr
          (flushMessage st.currentDocType st.currentControlNumber
            (jsGetD (safeSplitList seg (sepStr es)) 1)
            (st.closedSegmentErrors ++ st.currentSegment.toList)) e.segError
        ∧ ∀ el ∈ e.elementErrors,
            containsStr
              (flushMessage st.currentDocType st.currentControlNumber
                (jsGetD (safeSplitList seg (sepStr es)) 1)
                (st.closedSegmentErrors ++ st.currentSegment.toList)) el.error)
    ∧ (step fn es st seg).currentDocType = ""
    ∧ (step fn es st seg).currentControlNumber = ""
    ∧ (step fn es st seg).closedSegmentErrors = []
    ∧ (step fn es st seg).currentSegment = none
    ∧ (step fn es st seg).overallStatus = st.overallStatus
    ∧ (step fn es st seg).ak102 = st.ak102
    ∧ (step fn es st seg).tags = st.tags := by
  have hs : step fn es st seg =
      flushTransaction (jsGetD (safeSplitList seg (sepStr es)) 1) st := by
    rw [step_eq_AK5 fn es st seg hseg]
    rfl
  rw [hs, flushTransaction_open _ st hopen]
  refine ⟨rfl, ?_, ?_, ?_, rfl, rfl, rfl, rfl, rfl, rfl, rfl⟩
  · by_cases hR : jsGetD (safeSplitList seg (sepStr es)) 1 = "R" <;> simp [hR]
  · exact flushMessage_contains_ack _ _ _ _
  · intro e he
    refine ⟨?_, ?_⟩
    · exact containsStr_trans _ (segLine e) _
        (flushMessage_contains_err _ _ _ _ e he) (segLine_contains_seg e)
    · intro el hel
      exact containsStr_trans _ (segLine e) _
        (flushMessage_contains_err _ _ _ _ e he) (segLine_contains_elem e el hel)

/-- C7 witness: a concrete AK5 with the rejection code over an open
transaction resets the document type. -/
theorem claim_C7_witness : (step "w" (some '*') wOpen "AK5*R").currentDocType = "" :=
  (claim_C7 "w" (some '*') wOpen "AK5*R" (by decide) (by decide)).2.2.2.2.1

/-- C8: an AK4 segment encountered while no segment error is current is a
no-op: no element error is recorded and the whole walker state — logs and
tags included — is unchanged. -/
theorem claim_C8 (fn : String) (es : Option Char) (st : WalkState) (seg : String)
    (hseg : jsStartsWith seg "AK4" = true) (hcur : st.currentSegment = none) :
    step fn es st seg = st := by
  rw [step_eq_AK4 fn es st seg hseg]
  simp [stepAK4, hcur]

/-- C8 witness: a concrete orphan AK4 leaves the state untouched. -/
theorem claim_C8_witness : step "w" (some '*') wNoSeg "AK4*3**1*BAD" = wNoSeg :=
  claim_C8 "w" (some '*') wNoSeg "AK4*3**1*BAD" (by decide) rfl

/-- C9: the AK9 latch test is case-insensitive while the batch acceptance
test is case-sensitive: an AK9 code whose upper-case form is the accepted
letter never latches, a gated 997 file whose AK9 codes all upper-case to
the accepted letter keeps the literal accepted status, and such a file is
counted in the accepted accumulator of the batch loop, never the rejected
one. -/
theorem claim_C9 :
    (∀ (fn : String) (es : Option Char) (st : WalkState) (seg : String),
      jsStartsWith seg "AK9" = true → jsToUpper (ak9CodeOf es seg) = "A" →
      (step fn es st seg).overallStatus = st.overallStatus)
    ∧ (∀ (f : File) (body : String) (i : Nat), f.body = some body →
        jsIndexOf body "ISA" = some i → st01Of body i = "997" →
        (∀ seg ∈ rawSegmentsOf body i, jsStartsWith seg "AK9" = true →
          jsToUpper (ak9CodeOf (delimsOf body i).elementSep seg) = "A") →
        (classify f).is997 = true ∧ (classify f).status = some "A")
    ∧ (∀ (files : List File) (f : File), (classify f).is997 = true →
        (classify f).status = some "A" → f ∈ files →
        f ∈ (files.foldl batchStep ([], [], [])).2.1 ∧
        f ∉ (files.foldl batchStep ([], [], [])).2.2) := by
  refine ⟨?_, ?_, ?_⟩
  · intro fn es st seg h9 hup
    rw [step_eq_AK9 fn es st seg h9]
    exact stepAK9_status_keep fn es st seg (Or.inl hup)
  · intro f body i hb hisa hst hall
    obtain ⟨h1, h2⟩ := classify_997 f body i hb hisa hst
    refine ⟨h1, ?_⟩
    rw [h2, nonAccCodes_nil _ _ hall]
    rfl
  · intro files f h1 h2 hmem
    rw [batchFold_eq files [] [] []]
    simp only [List.nil_append]
    constructor
    · refine List.mem_filter.2 ⟨hmem, ?_⟩
      unfold acceptedF
      simp [h1, h2]
    · intro hmf
      have hr := (List.mem_filter.1 hmf).2
      unfold rejectedF at hr
      simp [h1, h2] at hr

/-- C9 witness: the concrete 997 with AK9 code lower-case a keeps the
literal accepted status. -/
theorem claim_C9_witness :
    (classify lowFile).is997 = true ∧ (classify lowFile).status = some "A" :=
  claim_C9.2.1 lowFile lowBody 0 rfl (by decide) (by decide) (by decide)

/-- C10: an AK5 with no open transaction is a no-op — the flush returns
early, emitting nothing and leaving the whole walker state unchanged. -/
theorem claim_C10 :
    (∀ (ackCode : String) (st : WalkState), st.currentDocType = "" →
      flushTransaction ackCode st = st)
    ∧ (∀ (fn : String) (es : Option Char) (st : WalkState) (seg : String),
        jsStartsWith seg "AK5" = true → st.currentDocType = "" →
        step fn es st seg = st) := by
  have hflush : ∀ (ackCode : String) (st : WalkState), st.currentDocType = "" →
      flushTransaction ackCode st = st := by
    intro a st h
    unfold flushTransaction
    rw [if_pos h]
  refine ⟨hflush, ?_⟩
  intro fn es st seg hseg h
  rw [step_eq_AK5 fn es st seg hseg]
  exact hflush _ st h

/-- C10 witness: a concrete AK5 over a closed-transaction state (with
leftover error structures present) changes nothing. -/
theorem claim_C10_witness : step "w" (some '*') wNoTx "AK5*R" = wNoTx :=
  claim_C10.2 "w" (some '*') wNoTx "AK5*R" (by decide) rfl

end X12
